/-
Verification of the business-scraper aggregation pipeline.

This file gives a shallow embedding of the Python source of the
`business-scraper` repository and proves/refutes the frozen claims about
it.  Conventions of the embedding:

* Python values flowing through the untyped dict-based pipeline are
  modelled by the inductive `PyVal`; Python dicts are association lists
  (`List (String × PyVal)`), preserving insertion order, with
  `pyLookup`/`dictSet` mirroring `d.get`/`d[k] = v`.
* Python floats are modelled as exact rationals (`Rat`); all arithmetic
  appearing in the claims is exactly representable, so no floating-point
  behaviour is lost for the properties at issue.
* Fallible Python code is modelled with `Except PyExc`, where `PyExc`
  distinguishes the exception classes that the source's `except` clauses
  distinguish.
* External collaborators (Playwright page fetches, the Groq HTTP
  transport, instaloader, the database session) are modelled as explicit
  oracle parameters returning `Except PyExc`-values; the orchestrator's
  control flow over them is translated statement by statement from
  `app/routes/analyze.py`.
-/
import Mathlib

set_option maxHeartbeats 1000000

namespace BusinessScraper

/-! ## Python value model -/

/-- Model of a Python/JSON value as it flows through the pipeline's
dicts.  Floats are modelled as exact rationals. -/
inductive PyVal where
  | none
  | bool (b : Bool)
  | int (n : Int)
  | rat (q : Rat)
  | str (s : String)
  | list (xs : List PyVal)
  | dict (xs : List (String × PyVal))

/-- Python exception classes distinguished by the source's `except`
clauses. -/
inductive PyExc where
  | keyError
  | indexError
  | typeError
  | attributeError
  | valueError
  | jsonDecodeError
  | requestException
  | other
  deriving DecidableEq

/-- First-match association-list lookup: `d.get(k)` on a Python dict
(keys are unique in real dicts; we look up the first occurrence). -/
def pyLookup (d : List (String × PyVal)) (k : String) : Option PyVal :=
  match d with
  | [] => Option.none
  | (k', v) :: rest => if k' = k then some v else pyLookup rest k

/-- `d.get(k, default)`. -/
def pyGetD (d : List (String × PyVal)) (k : String) (dflt : PyVal) : PyVal :=
  (pyLookup d k).getD dflt

/-- `d[k] = v` on a Python dict: replace the value at an existing key in
place (insertion order kept), otherwise append the new key at the end. -/
def dictSet (d : List (String × PyVal)) (k : String) (v : PyVal) :
    List (String × PyVal) :=
  match d with
  | [] => [(k, v)]
  | (k', v') :: rest =>
      if k' = k then (k', v) :: rest else (k', v') :: dictSet rest k v

/-- Python truthiness (`bool(v)`): `None`, `False`, `0`, `""`, `[]`, `{}`
are falsy. -/
def truthy : PyVal → Bool
  | .none => false
  | .bool b => b
  | .int n => n ≠ 0
  | .rat q => q ≠ 0
  | .str s => s ≠ ""
  | .list xs => ¬ xs.isEmpty
  | .dict xs => ¬ xs.isEmpty

/-! ## String helpers (modelling Python `str` methods and `re` usage) -/

/-- Python's `str.strip()` whitespace set (ASCII). -/
def isPyWs (c : Char) : Bool :=
  c = ' ' ∨ c = '\t' ∨ c = '\n' ∨ c = '\r' ∨ c = '\x0b' ∨ c = '\x0c'

/-- Python `s.strip()`. -/
def pyStrip (s : String) : String :=
  String.mk (((s.toList.dropWhile isPyWs).reverse.dropWhile isPyWs).reverse)

/-- ASCII lower-casing of one character (`str.lower` on the ASCII range
the pipeline's inputs use). -/
def pyCharLower (c : Char) : Char :=
  if 'A' ≤ c ∧ c ≤ 'Z' then Char.ofNat (c.toNat + 32) else c

/-- Python `s.lower()`. -/
def pyLower (s : String) : String :=
  String.mk (s.toList.map pyCharLower)

/-- Python `s.startswith(pre)`. -/
def pyStartsWith (s pre : String) : Bool :=
  pre.toList.isPrefixOf s.toList

/-- Python `s[:n]` (also `s[:n]` via `.take`). -/
def pyTakeStr (s : String) (n : Nat) : String :=
  String.mk (s.toList.take n)

/-- `needle` occurs as a contiguous run inside `hay` (Python `in`). -/
def listContainsSeq (hay needle : List Char) : Bool :=
  match hay with
  | [] => needle.isEmpty
  | _ :: rest => needle.isPrefixOf hay || listContainsSeq rest needle

/-- Python `needle in hay` on strings. -/
def strContains (hay needle : String) : Bool :=
  listContainsSeq hay.toList needle.toList

/-- ASCII alphanumeric predicate, `[a-zA-Z0-9]`. -/
def isAsciiAlnum (c : Char) : Bool :=
  (('a' ≤ c ∧ c ≤ 'z') ∨ ('A' ≤ c ∧ c ≤ 'Z') ∨ ('0' ≤ c ∧ c ≤ '9') : Prop)

/-! ## `app/scrapers/utils.py` -/

/-- The alternatives of the stop-word pattern in
`generate_instagram_usernames`, in the order they appear in the source
regex `(the|a|an|and|or|of|in|at|for|llc|inc|co|corp)`. -/
def stopwordAlts : List (List Char) :=
  ["the".toList, "a".toList, "an".toList, "and".toList, "or".toList,
   "of".toList, "in".toList, "at".toList, "for".toList, "llc".toList,
   "inc".toList, "co".toList, "corp".toList]

/-- First alternative (in pattern order) matching at the head of `cs`,
mirroring Python's ordered-alternation semantics. -/
def firstAltAt (alts : List (List Char)) (cs : List Char) : Option (List Char) :=
  match alts with
  | [] => Option.none
  | a :: rest => if a.isPrefixOf cs then some a else firstAltAt rest cs

/-- `re.sub(pattern, "", s)` for an alternation of nonempty literals:
scan left to right, removing the leftmost match (first alternative wins)
and continuing after it. -/
def reSubAltsF (alts : List (List Char)) : Nat → List Char → List Char
  | 0, cs => cs
  | _, [] => []
  | fuel + 1, c :: cs =>
      match firstAltAt alts (c :: cs) with
      | some [] => c :: reSubAltsF alts fuel cs
      | some (_ :: rest) => reSubAltsF alts fuel (cs.drop rest.length)
      | Option.none => c :: reSubAltsF alts fuel cs

/-- `re.sub` with enough fuel for the whole input (every step consumes
at least one character). -/
def reSubAlts (alts : List (List Char)) (cs : List Char) : List Char :=
  reSubAltsF alts cs.length cs

/-- `base = re.sub(r"[^a-zA-Z0-9]", "", business_name.lower())` from
`generate_instagram_usernames`. -/
def usernameBase (businessName : String) : String :=
  String.mk ((pyLower businessName).toList.filter isAsciiAlnum)

/-- `re.sub(r"(the|a|an|and|or|of|in|at|for|llc|inc|co|corp)", "", base)`. -/
def usernameShort (base : String) : String :=
  String.mk (reSubAlts stopwordAlts base.toList)

/-- `generate_instagram_usernames` from `app/scrapers/utils.py`. -/
def generate_instagram_usernames (businessName : String) : List String :=
  let base := usernameBase businessName
  let short := usernameShort base
  let candidates := [base]
  let candidates :=
    if short ≠ "" ∧ short ≠ base then candidates ++ [short] else candidates
  if base.length > 20 then candidates ++ [pyTakeStr base 20] else candidates

/-- Characters ending the capture group `[^/?#]+`. -/
def igStopChar (c : Char) : Bool := c = '/' ∨ c = '?' ∨ c = '#'

/-- Try the regex `instagram\.com/([^/?#]+)` at the head of `cs`,
returning the captured group. -/
def igMatchAt (cs : List Char) : Option (List Char) :=
  if "instagram.com/".toList.isPrefixOf cs then
    let rest := cs.drop "instagram.com/".length
    let captured := rest.takeWhile (fun c => ¬ igStopChar c)
    if captured.isEmpty then Option.none else some captured
  else Option.none

/-- `re.search(r"instagram\.com/([^/?#]+)", url)`: leftmost match. -/
def igSearch : List Char → Option (List Char)
  | [] => Option.none
  | c :: cs =>
      match igMatchAt (c :: cs) with
      | some cap => some cap
      | Option.none => igSearch cs

/-- `extract_instagram_username_from_url` from `app/scrapers/utils.py`:
leftmost regex match, `.strip("/")` (a no-op on the capture, which cannot
contain `/`), then the reserved-segment filter. -/
def extract_instagram_username_from_url (url : String) : Option String :=
  match igSearch url.toList with
  | Option.none => Option.none
  | some cap =>
      let username := String.mk cap
      if (pyLower username = "p" ∨ pyLower username = "explore" ∨
          pyLower username = "accounts" ∨ pyLower username = "reel" ∨
          pyLower username = "stories" : Prop)
      then Option.none
      else some username

/-! ## `app/scrapers/instagram.py` -/

/-- The username-candidate list built at the top of `scrape_instagram`:
the parsed website URL wins outright when it parses; otherwise the
generated candidates are used. -/
def usernamesToTry (businessName : String) (websiteInstagramUrl : Option String) :
    List String :=
  match websiteInstagramUrl with
  | some url =>
      match extract_instagram_username_from_url url with
      | some parsed => [parsed]
      | Option.none => generate_instagram_usernames businessName
  | Option.none => generate_instagram_usernames businessName

/-- Round-half-to-even to an integer, the semantics of Python's
`round` on exactly-representable values. -/
def pyRoundInt (q : Rat) : Int :=
  let f : Int := ⌊q⌋
  let r : Rat := q - (f : Rat)
  if r < 1/2 then f
  else if r > 1/2 then f + 1
  else if f % 2 = 0 then f else f + 1

/-- Python `round(x, 2)` on exact rationals. -/
def pyRound2 (q : Rat) : Rat :=
  (pyRoundInt (q * 100) : Rat) / 100

/-- `_calculate_engagement` from `app/scrapers/instagram.py`.  A post is
a `(likes, comments)` pair; `profile.get_posts()` (which the source may
see raise, caught by its broad `except`) is modelled as an
`Except PyExc` value. -/
def calculate_engagement (followers : Nat)
    (postsResult : Except PyExc (List (Nat × Nat))) : Rat :=
  if followers = 0 then 0
  else
    match postsResult with
    | .error _ => 0
    | .ok posts =>
        let recent := posts.take 12
        if recent.isEmpty then 0
        else
          let n : Rat := recent.length
          let avgLikes : Rat := (recent.map (fun p => (p.1 : Rat))).sum / n
          let avgComments : Rat := (recent.map (fun p => (p.2 : Rat))).sum / n
          pyRound2 ((avgLikes + avgComments) / (followers : Rat) * 100)

/-! ## `_extract_prices` from `app/scrapers/website.py`

The function runs `re.finditer(r'\$[\d,]+(?:\.\d{2})?', text)` over the
page's visible text (`soup.get_text()`), attaches the ±50-character
window around each match (`.strip()`-ed), and truncates to 20.  We embed
it as a function of the visible text. -/

/-- A `{"price": ..., "context": ...}` entry of `_extract_prices`. -/
structure PriceInfo where
  price : String
  context : String
  deriving DecidableEq

/-- Character class `[\d,]`. -/
def isDigitOrComma (c : Char) : Bool := c.isDigit ∨ c = ','

/-- Whether the optional group `(?:\.\d{2})?` matches at the head of
`l`: a dot followed by two digits. -/
def decTailMatches (l : List Char) : Bool :=
  match l with
  | c :: d1 :: d2 :: _ => c = '.' && d1.isDigit && d2.isDigit
  | _ => false

/-- Match the regex `\$[\d,]+(?:\.\d{2})?` at the head of `cs`, returning
the match length.  The character class excludes `.`, so the greedy
one-or-more run and the optional two-decimal tail need no backtracking. -/
def priceMatchAt (cs : List Char) : Option Nat :=
  match cs with
  | c :: rest =>
      if c = '$' then
        let run := rest.takeWhile isDigitOrComma
        if run.isEmpty then Option.none
        else if decTailMatches (rest.drop run.length) then
          some (1 + run.length + 3)
        else some (1 + run.length)
      else Option.none
  | [] => Option.none

/-- `re.finditer`: non-overlapping leftmost matches, scanning left to
right and resuming after each match.  Returns `(start, length)` pairs.
`fuel` bounds the recursion; each step advances the position. -/
def priceScan (full : List Char) : Nat → Nat → List (Nat × Nat)
  | 0, _ => []
  | fuel + 1, pos =>
      if pos ≥ full.length then []
      else
        match priceMatchAt (full.drop pos) with
        | some len => (pos, len) :: priceScan full fuel (pos + len)
        | Option.none => priceScan full fuel (pos + 1)

/-- `_extract_prices` from `app/scrapers/website.py`, as a function of
the page's visible text. -/
def extract_prices_web (text : String) : List PriceInfo :=
  let cs := text.toList
  let ms := priceScan cs (cs.length + 1) 0
  (ms.map (fun m =>
    let start := m.1 - 50
    let stop := min cs.length (m.1 + m.2 + 50)
    { price := String.mk ((cs.drop m.1).take m.2)
      context := pyStrip (String.mk ((cs.drop start).take (stop - start))) })).take 20

/-! ## `scrape_google_maps` from `app/scrapers/google_maps.py`

The Playwright session is abstracted into the list of collected listing
links: each listing carries its `href` attribute (empty string when the
attribute is missing, per `get_attribute("href") or ""`) and the outcome
of clicking it and running `_extract_business_details` — either an
exception (caught and logged by the per-listing `try`) or the extracted
business dict.  A failed session setup (Playwright missing, navigation
error, feed timeout) yields the empty listing list. -/

/-- One listing link found on the results feed. -/
structure Listing where
  href : String
  clicked : Except PyExc (List (String × PyVal))

/-- The per-listing loop of `scrape_google_maps`: stop once
`max_results` businesses are collected, skip already-seen hrefs, skip
listings whose click raised, and keep a business only when
`business.get("name")` is truthy. -/
def gmapsLoop (maxResults : Int) : List Listing → List String →
    List (List (String × PyVal)) → List (List (String × PyVal))
  | [], _, results => results
  | l :: rest, seen, results =>
      if (results.length : Int) ≥ maxResults then results
      else if l.href ∈ seen then gmapsLoop maxResults rest seen results
      else
        match l.clicked with
        | .error _ => gmapsLoop maxResults rest (l.href :: seen) results
        | .ok business =>
            if truthy (pyGetD business "name" PyVal.none) then
              gmapsLoop maxResults rest (l.href :: seen) (results ++ [business])
            else
              gmapsLoop maxResults rest (l.href :: seen) results

/-- `scrape_google_maps`: on any failure of the discovery session itself
the accumulated `results` (empty, since the failure precedes the loop)
are returned; otherwise the listing loop runs. -/
def scrape_google_maps (maxResults : Int)
    (session : Except PyExc (List Listing)) : List (List (String × PyVal)) :=
  match session with
  | .error _ => []
  | .ok listings => gmapsLoop maxResults listings [] []

/-- Reference form of the loop: keep the first listing of each `href`
(`seen_hrefs`), keep successfully-clicked businesses with a truthy
`name`, and truncate to the bound. -/
def dedupByHref (seen : List String) : List Listing → List Listing
  | [] => []
  | l :: rest =>
      if l.href ∈ seen then dedupByHref seen rest
      else l :: dedupByHref (l.href :: seen) rest

/-- The business a listing contributes, if any. -/
def goodListing (l : Listing) : Option (List (String × PyVal)) :=
  match l.clicked with
  | .error _ => Option.none
  | .ok business =>
      if truthy (pyGetD business "name" PyVal.none) then some business
      else Option.none

/-! ## A model of `json.loads`

A small recursive-descent parser for the JSON subset the pipeline's
replies use (null, booleans, integers, decimals, strings with the basic
escapes, arrays, objects).  It is a model of the Python standard
library, not of repository code; any parse failure is a
`json.JSONDecodeError`. -/

/-- JSON insignificant whitespace. -/
def skipWs (cs : List Char) : List Char :=
  cs.dropWhile (fun c => c = ' ' ∨ c = '\n' ∨ c = '\t' ∨ c = '\r')

/-- Parse the body of a JSON string literal (after the opening quote). -/
def jsonParseStrBody : List Char → Option (List Char × List Char)
  | [] => Option.none
  | '"' :: rest => some ([], rest)
  | '\\' :: e :: rest =>
      let decoded : Option Char :=
        if e = 'n' then some '\n'
        else if e = 't' then some '\t'
        else if e = 'r' then some '\r'
        else if e = '"' ∨ e = '\\' ∨ e = '/' then some e
        else Option.none
      match decoded with
      | some c =>
          match jsonParseStrBody rest with
          | some (cs, rem) => some (c :: cs, rem)
          | Option.none => Option.none
      | Option.none => Option.none
  | c :: rest =>
      match jsonParseStrBody rest with
      | some (cs, rem) => some (c :: cs, rem)
      | Option.none => Option.none

/-- Parse a JSON number: optional minus, digits, optional fraction.
Returns an `int` when no fractional part is present, a `rat` otherwise,
matching `json.loads`'s int/float distinction. -/
def jsonParseNum (cs : List Char) : Option (PyVal × List Char) :=
  let (neg, cs1) :=
    match cs with
    | '-' :: rest => (true, rest)
    | _ => (false, cs)
  let digits := cs1.takeWhile Char.isDigit
  if digits.isEmpty then Option.none
  else
    let intPart : Nat := digits.foldl (fun acc c => acc * 10 + (c.toNat - 48)) 0
    let rest1 := cs1.drop digits.length
    match rest1 with
    | '.' :: rest2 =>
        let frac := rest2.takeWhile Char.isDigit
        if frac.isEmpty then Option.none
        else
          let fracPart : Nat := frac.foldl (fun acc c => acc * 10 + (c.toNat - 48)) 0
          let q : Rat := (intPart : Rat) + (fracPart : Rat) / ((10 : Rat) ^ frac.length)
          some (.rat (if neg then -q else q), rest2.drop frac.length)
    | _ =>
        some (.int (if neg then -(intPart : Int) else (intPart : Int)), rest1)

mutual

/-- Parse one JSON value; `fuel` bounds nesting depth. -/
def jsonParseVal : Nat → List Char → Option (PyVal × List Char)
  | 0, _ => Option.none
  | fuel + 1, cs =>
      match skipWs cs with
      | [] => Option.none
      | c :: rest =>
          if c = 'n' then
            if "ull".toList.isPrefixOf rest then some (.none, rest.drop 3)
            else Option.none
          else if c = 't' then
            if "rue".toList.isPrefixOf rest then some (.bool true, rest.drop 3)
            else Option.none
          else if c = 'f' then
            if "alse".toList.isPrefixOf rest then some (.bool false, rest.drop 4)
            else Option.none
          else if c = '"' then
            match jsonParseStrBody rest with
            | some (body, rem) => some (.str (String.mk body), rem)
            | Option.none => Option.none
          else if c = '[' then
            match skipWs rest with
            | ']' :: rem => some (.list [], rem)
            | _ =>
                match jsonParseArr fuel rest with
                | some (xs, rem) => some (.list xs, rem)
                | Option.none => Option.none
          else if c = '{' then
            match skipWs rest with
            | '}' :: rem => some (.dict [], rem)
            | _ =>
                match jsonParseObj fuel rest with
                | some (xs, rem) => some (.dict xs, rem)
                | Option.none => Option.none
          else jsonParseNum (c :: rest)

/-- Parse the elements of a nonempty JSON array (after `[`). -/
def jsonParseArr : Nat → List Char → Option (List PyVal × List Char)
  | 0, _ => Option.none
  | fuel + 1, cs =>
      match jsonParseVal fuel cs with
      | Option.none => Option.none
      | some (v, rem) =>
          match skipWs rem with
          | ',' :: rem2 =>
              match jsonParseArr fuel rem2 with
              | some (vs, rem3) => some (v :: vs, rem3)
              | Option.none => Option.none
          | ']' :: rem2 => some ([v], rem2)
          | _ => Option.none

/-- Parse the members of a nonempty JSON object (after `{`). -/
def jsonParseObj : Nat → List Char → Option (List (String × PyVal) × List Char)
  | 0, _ => Option.none
  | fuel + 1, cs =>
      match skipWs cs with
      | '"' :: rest =>
          match jsonParseStrBody rest with
          | Option.none => Option.none
          | some (key, rem) =>
              match skipWs rem with
              | ':' :: rem2 =>
                  match jsonParseVal fuel rem2 with
                  | Option.none => Option.none
                  | some (v, rem3) =>
                      match skipWs rem3 with
                      | ',' :: rem4 =>
                          match jsonParseObj fuel rem4 with
                          | some (kvs, rem5) => some ((String.mk key, v) :: kvs, rem5)
                          | Option.none => Option.none
                      | '}' :: rem4 => some ([(String.mk key, v)], rem4)
                      | _ => Option.none
              | _ => Option.none
      | _ => Option.none

end

/-- `json.loads`: the whole input must be one JSON value (plus
whitespace); otherwise `json.JSONDecodeError`. -/
def jsonLoads (s : String) : Except PyExc PyVal :=
  match jsonParseVal (s.length + 1) s.toList with
  | some (v, rem) =>
      if (skipWs rem).isEmpty then .ok v else .error .jsonDecodeError
  | Option.none => .error .jsonDecodeError

/-! ## Subscripting and coercions used by the assessment clients -/

/-- `v[k]` for a string key: `KeyError` on a missing dict key,
`TypeError` on non-dict values (`list`/`str` demand integer indices,
`None`/numbers are not subscriptable). -/
def pySubKey (v : PyVal) (k : String) : Except PyExc PyVal :=
  match v with
  | .dict xs =>
      match pyLookup xs k with
      | some x => .ok x
      | Option.none => .error .keyError
  | _ => .error .typeError

/-- `v[i]` for a nonnegative integer index. -/
def pySubIdx (v : PyVal) (i : Nat) : Except PyExc PyVal :=
  match v with
  | .list xs =>
      match xs.get? i with
      | some x => .ok x
      | Option.none => .error .indexError
  | .str s =>
      match s.toList.get? i with
      | some c => .ok (.str (String.mk [c]))
      | Option.none => .error .indexError
  | .dict _ => .error .keyError
  | _ => .error .typeError

/-- `data.get(k, dflt)` where `data` came from `json.loads`: an
`AttributeError` when `data` is not a dict (e.g. a JSON array). -/
def pyDotGetD (v : PyVal) (k : String) (dflt : PyVal) : Except PyExc PyVal :=
  match v with
  | .dict xs => .ok (pyGetD xs k dflt)
  | _ => .error .attributeError

/-- `content.strip()`'s receiver check: an `AttributeError` when the
extracted `content` is not a string. -/
def pyAsStr (v : PyVal) : Except PyExc String :=
  match v with
  | .str s => .ok s
  | _ => .error .attributeError

/-- Parse a Python numeric literal string (as accepted by `float`):
optional sign, digits with an optional fractional part. -/
def strToRat (s : String) : Option Rat :=
  let cs := (pyStrip s).toList
  let (neg, cs1) :=
    match cs with
    | '-' :: rest => (true, rest)
    | '+' :: rest => (false, rest)
    | _ => (false, cs)
  match jsonParseNum cs1 with
  | some (.int n, []) => some (if neg then -(n : Rat) else (n : Rat))
  | some (.rat q, []) => some (if neg then -q else q)
  | _ => Option.none

/-- Python `float(v)`: `TypeError` for `None`/lists/dicts, `ValueError`
for non-numeric strings. -/
def pyFloat (v : PyVal) : Except PyExc Rat :=
  match v with
  | .int n => .ok (n : Rat)
  | .rat q => .ok q
  | .bool b => .ok (if b then 1 else 0)
  | .str s =>
      match strToRat s with
      | some q => .ok q
      | Option.none => .error .valueError
  | _ => .error .typeError

/-- Python `int(v)`: truncates floats toward zero; integer-literal
strings only (`ValueError` otherwise); `TypeError` for `None`/lists/
dicts. -/
def pyIntCoe (v : PyVal) : Except PyExc Int :=
  match v with
  | .int n => .ok n
  | .rat q => .ok (if q < 0 then ⌈q⌉ else ⌊q⌋)
  | .bool b => .ok (if b then 1 else 0)
  | .str s =>
      let cs := (pyStrip s).toList
      let (neg, cs1) :=
        match cs with
        | '-' :: rest => (true, rest)
        | '+' :: rest => (false, rest)
        | _ => (false, cs)
      if ¬ cs1.isEmpty ∧ cs1.all Char.isDigit then
        let n : Nat := cs1.foldl (fun acc c => acc * 10 + (c.toNat - 48)) 0
        .ok (if neg then -(n : Int) else (n : Int))
      else .error .valueError
  | _ => .error .typeError

/-! ## The two external assessment clients
(`app/analyzers/ai_analyzer.py` and `app/analyzers/website_grader.py`)

The HTTP exchange with the scoring service is abstracted into a
`Transport` value: either the `requests.post` call raised a
`requests.RequestException`, or it produced a response with a status
code and a `response.json()` payload (`Option.none` when the response
body is not JSON, which `response.json()` reports as a
`JSONDecodeError`).  Everything downstream of `requests.post` is
translated statement by statement. -/

/-- Outcome of the `requests.post` call. -/
inductive Transport where
  | exn
  | resp (status : Nat) (body : Option PyVal)

/-- The code-fence stripper shared by `_parse_analysis` and
`_parse_grade`: strip, and if the content starts with three backticks
drop every line starting with three backticks, re-join and strip.
(We split lines on `'\n'`; Python's `splitlines` additionally drops a
trailing empty line, a difference erased by the final `strip`.) -/
def splitOnNl : List Char → List (List Char)
  | [] => [[]]
  | c :: rest =>
      if c = '\n' then [] :: splitOnNl rest
      else
        match splitOnNl rest with
        | l :: ls => (c :: l) :: ls
        | [] => [[c]]

/-- Re-join lines with a newline separator. -/
def joinNl : List (List Char) → List Char
  | [] => []
  | [l] => l
  | l :: ls => l ++ '\n' :: joinNl ls

def stripFences (content : String) : String :=
  let c := pyStrip content
  if pyStartsWith c "```" then
    pyStrip (String.mk (joinNl ((splitOnNl c.toList).filter
      (fun line => ¬ "```".toList.isPrefixOf line))))
  else c

/-- `_empty_analysis` from `app/analyzers/ai_analyzer.py`. -/
def empty_analysis : PyVal :=
  .dict [("revenue_streams", .list []),
         ("estimated_revenue_tier", .none),
         ("pricing_strategy", .none),
         ("service_quality_score", .none),
         ("competitive_assessment", .none),
         ("niche_specific_insights", .none)]

/-- `_empty_grade` from `app/analyzers/website_grader.py`. -/
def empty_grade : PyVal :=
  .dict [("total_score", .int 0),
         ("design_score", .int 0),
         ("seo_score", .int 0),
         ("strengths", .list []),
         ("weaknesses", .list []),
         ("recommendations", .list [])]

/-- `_parse_analysis` from `app/analyzers/ai_analyzer.py`: fence strip,
`json.loads`, then per-field defaults with a `float` coercion of the
quality score.  `data.get` on a non-dict raises `AttributeError` and
`float` may raise `TypeError`/`ValueError`; neither is in the caller's
`except` tuple. -/
def parse_analysis (content : String) : Except PyExc PyVal := do
  let data ← jsonLoads (stripFences content)
  let rs ← pyDotGetD data "revenue_streams" (.list [])
  let tier ← pyDotGetD data "estimated_revenue_tier" (.str "Unknown")
  let strat ← pyDotGetD data "pricing_strategy" (.str "Unknown")
  let rawScore ← pyDotGetD data "service_quality_score" (.int 0)
  let score ← pyFloat rawScore
  let comp ← pyDotGetD data "competitive_assessment" (.str "")
  let insights ← pyDotGetD data "niche_specific_insights" (.str "")
  return .dict [("revenue_streams", rs),
                ("estimated_revenue_tier", tier),
                ("pricing_strategy", strat),
                ("service_quality_score", .rat score),
                ("competitive_assessment", comp),
                ("niche_specific_insights", insights)]

/-- `_parse_grade` from `app/analyzers/website_grader.py`. -/
def parse_grade (content : String) : Except PyExc PyVal := do
  let data ← jsonLoads (stripFences content)
  let total ← pyDotGetD data "total_score" (.int 0)
  let totalN ← pyIntCoe total
  let design ← pyDotGetD data "design_score" (.int 0)
  let designN ← pyIntCoe design
  let seo ← pyDotGetD data "seo_score" (.int 0)
  let seoN ← pyIntCoe seo
  let strengths ← pyDotGetD data "strengths" (.list [])
  let weaknesses ← pyDotGetD data "weaknesses" (.list [])
  let recs ← pyDotGetD data "recommendations" (.list [])
  return .dict [("total_score", .int totalN),
                ("design_score", .int designN),
                ("seo_score", .int seoN),
                ("strengths", strengths),
                ("weaknesses", weaknesses),
                ("recommendations", recs)]

/-- The exception classes named in the clients' second `except` clause:
`(KeyError, IndexError, json.JSONDecodeError)`. -/
def caughtByClients (e : PyExc) : Bool :=
  e = .keyError ∨ e = .indexError ∨ e = .jsonDecodeError

/-- `response.json()["choices"][0]["message"]["content"]` followed by
`_parse_analysis`/`_parse_grade`, the shared body of both clients' `try`
blocks. -/
def clientTryBlock (parseFn : String → Except PyExc PyVal)
    (body : Option PyVal) : Except PyExc PyVal := do
  let j ← match body with
          | some v => Except.ok v
          | Option.none => Except.error PyExc.jsonDecodeError
  let choices ← pySubKey j "choices"
  let first ← pySubIdx choices 0
  let msg ← pySubKey first "message"
  let contentVal ← pySubKey msg "content"
  let content ← pyAsStr contentVal
  parseFn content

/-- `analyze_business` from `app/analyzers/ai_analyzer.py`, as a
function of the configured credential and the transport outcome (the
prompt text sent does not influence the returned value).  The result is
`Except.error e` exactly when the Python function raises `e` to its
caller. -/
def analyze_business (apiKey : String) (t : Transport) : Except PyExc PyVal :=
  if apiKey = "" then .ok empty_analysis
  else
    match t with
    | .exn => .ok empty_analysis
    | .resp status body =>
        if status ≠ 200 then .ok empty_analysis
        else
          match clientTryBlock parse_analysis body with
          | .ok v => .ok v
          | .error e =>
              if caughtByClients e then .ok empty_analysis else .error e

/-- `grade_website` from `app/analyzers/website_grader.py`: credential
check, then the guard `if not website_data or not website_data.get("url")`
(whose `.get` raises `AttributeError` on a truthy non-dict), then the
same transport/parse handling as the analysis client. -/
def grade_website (apiKey : String) (websiteData : PyVal) (t : Transport) :
    Except PyExc PyVal :=
  if apiKey = "" then .ok empty_grade
  else if ¬ truthy websiteData then .ok empty_grade
  else
    match pyDotGetD websiteData "url" .none with
    | .error e => .error e
    | .ok url =>
        if ¬ truthy url then .ok empty_grade
        else
          match t with
          | .exn => .ok empty_grade
          | .resp status body =>
              if status ≠ 200 then .ok empty_grade
              else
                match clientTryBlock parse_grade body with
                | .ok v => .ok v
                | .error e =>
                    if caughtByClients e then .ok empty_grade else .error e

/-! ## DOM model for `_parse_website_content` (`app/scrapers/website.py`)

BeautifulSoup's parsed document is modelled as a tree of elements and
text nodes; `find_all` is preorder (document-order) traversal of the
descendants, `get_text` concatenates the subtree's strings, and
`find_parent` walks the ancestor chain.  The one behaviour of the
Python code that a pure tree cannot reproduce is `list(set(...))`:
CPython iterates a `str` set in an order determined by the per-process
hash salt (`PYTHONHASHSEED`), so the embedding takes the set-iteration
order as an explicit parameter `σ` — a function that, per run, turns
the accumulated list into the iteration order of its set of elements
(any duplicate-free enumeration of the distinct elements). -/

/-- An HTML DOM node. -/
inductive Node where
  | text (s : String)
  | elem (tag : String) (attrs : List (String × String)) (children : List Node)

mutual

/-- A node's subtree in preorder (document order), the node itself
first. -/
def subNodes : Node → List Node
  | .text s => [.text s]
  | .elem t a cs => .elem t a cs :: subNodesList cs

/-- Preorder traversal of a forest. -/
def subNodesList : List Node → List Node
  | [] => []
  | n :: ns => subNodes n ++ subNodesList ns

end

mutual

/-- A node's subtree in preorder, each node paired with its ancestor
chain (innermost ancestor first). -/
def subNodesAnc : Node → List Node → List (Node × List Node)
  | .text s, anc => [(.text s, anc)]
  | .elem t a cs, anc =>
      (.elem t a cs, anc) :: subNodesAncList cs (.elem t a cs :: anc)

/-- Ancestor-tracking preorder traversal of a forest. -/
def subNodesAncList : List Node → List Node → List (Node × List Node)
  | [], _ => []
  | n :: ns, anc => subNodesAnc n anc ++ subNodesAncList ns anc

end

/-- The tag of an element node. -/
def tagOf : Node → Option String
  | .text _ => Option.none
  | .elem t _ _ => some t

/-- Attribute lookup on an element. -/
def attrOf (n : Node) (k : String) : Option String :=
  match n with
  | .text _ => Option.none
  | .elem _ attrs _ =>
      (attrs.find? (fun p => p.1 = k)).map Prod.snd

/-- `node.get(k, dflt)`. -/
def attrD (n : Node) (k dflt : String) : String := (attrOf n k).getD dflt

/-- The descendants of a node (excluding the node itself), in document
order — the search space of `find_all`. -/
def descendantsOf : Node → List Node
  | .text _ => []
  | .elem _ _ cs => subNodesList cs

/-- `soup.find_all(tags)`. -/
def findAllTags (root : Node) (tags : List String) : List Node :=
  (descendantsOf root).filter (fun n => (tagOf n).any (fun t => t ∈ tags))

/-- The strings of a subtree in document order. -/
def stringsOf (n : Node) : List String :=
  (subNodes n).filterMap (fun m =>
    match m with
    | .text s => some s
    | .elem _ _ _ => Option.none)

/-- `node.get_text()`: concatenation of the subtree's strings. -/
def getText (n : Node) : String := String.join (stringsOf n)

/-- `node.get_text(strip=True)`: each string stripped, empties dropped,
joined without a separator. -/
def getTextStrip (n : Node) : String :=
  String.join (((stringsOf n).map pyStrip).filter (fun s => s ≠ ""))

/-- `heading.find_parent(["section", "div"])`: the nearest ancestor with
one of the given tags. -/
def findParentTags (anc : List Node) (tags : List String) : Option Node :=
  anc.find? (fun n => (tagOf n).any (fun t => t ∈ tags))

/-! ### `urllib.parse` model

A model of `urlparse().netloc` and `urljoin` covering the resolution
cases the extractor exercises (absolute base URLs with a scheme;
relative, root-relative, protocol-relative and absolute references). -/

/-- Drop a leading `scheme:` if present. -/
def stripScheme (cs : List Char) : List Char :=
  match cs with
  | c :: _ =>
      if c.isAlpha then
        let sch := cs.takeWhile (fun d =>
          d.isAlpha ∨ d.isDigit ∨ d = '+' ∨ d = '-' ∨ d = '.')
        match cs.drop sch.length with
        | ':' :: rest => rest
        | _ => cs
      else cs
  | [] => cs

/-- Whether the URL starts with a `scheme:`. -/
def hasScheme (cs : List Char) : Bool :=
  decide (stripScheme cs ≠ cs)

/-- The `scheme` of a URL, empty when absent. -/
def schemeOf (u : String) : String :=
  let cs := u.toList
  if hasScheme cs then
    String.mk (cs.takeWhile (fun d => d ≠ ':'))
  else ""

/-- `urlparse(u).netloc`. -/
def netlocOf (u : String) : String :=
  let rest := stripScheme u.toList
  if "//".toList.isPrefixOf rest then
    String.mk ((rest.drop 2).takeWhile
      (fun c => ¬ (c = '/' ∨ c = '?' ∨ c = '#')))
  else ""

/-- The path component following the netloc, up to any query/fragment. -/
def pathOf (u : String) : String :=
  let rest := stripScheme u.toList
  let rest := if "//".toList.isPrefixOf rest then
    (rest.drop 2).dropWhile (fun c => ¬ (c = '/' ∨ c = '?' ∨ c = '#'))
  else rest
  String.mk (rest.takeWhile (fun c => ¬ (c = '?' ∨ c = '#')))

/-- The directory of a path: everything up to and including the last
`/` (or `/` itself when the path has none). -/
def dirOf (p : String) : String :=
  let cs := p.toList.reverse.dropWhile (fun c => c ≠ '/')
  if cs.isEmpty then "/" else String.mk cs.reverse

/-- `urljoin(base, rel)` (model). -/
def urljoin (base rel : String) : String :=
  if rel = "" then base
  else if hasScheme rel.toList then rel
  else if "//".toList.isPrefixOf rel.toList then
    if schemeOf base = "" then rel else schemeOf base ++ ":" ++ rel
  else
    let root := schemeOf base ++ "://" ++ netlocOf base
    if rel.startsWith "/" then root ++ rel
    else root ++ dirOf (pathOf base) ++ rel

/-! ### The extraction heuristics of `app/scrapers/website.py` -/

/-- An entry of the `images` list. -/
structure ImageInfo where
  src : String
  alt : String
  has_alt : Bool
  deriving DecidableEq

/-- An entry of the `links` list. -/
structure LinkInfo where
  url : String
  text : String
  deriving DecidableEq

/-- `_extract_meta_title`. -/
def extract_meta_title (root : Node) : String :=
  match (findAllTags root ["title"]).head? with
  | some t => getTextStrip t
  | Option.none => ""

/-- `soup.find("meta", attrs={"name": name})`. -/
def findMetaNamed (root : Node) (name : String) : Option Node :=
  ((descendantsOf root).filter (fun n =>
    (tagOf n).any (fun t => t = "meta") ∧ attrOf n "name" = some name)).head?

/-- `_extract_meta_description`. -/
def extract_meta_description (root : Node) : String :=
  match findMetaNamed root "description" with
  | some m => pyStrip (attrD m "content" "")
  | Option.none => ""

/-- `_extract_h1_tags`. -/
def extract_h1_tags (root : Node) : List String :=
  ((findAllTags root ["h1"]).map getTextStrip).filter (fun s => s ≠ "")

/-- `_extract_images`. -/
def extract_images (root : Node) (baseUrl : String) : List ImageInfo :=
  ((findAllTags root ["img"]).take 50).filterMap (fun img =>
    let src := attrD img "src" ""
    let alt := pyStrip (attrD img "alt" "")
    if src ≠ "" then
      let src := if ¬ pyStartsWith src "http" then urljoin baseUrl src else src
      some { src := src, alt := alt, has_alt := alt ≠ "" }
    else Option.none)

/-- `_extract_links`. -/
def extract_links (root : Node) (baseUrl : String) : List LinkInfo :=
  let baseDomain := netlocOf baseUrl
  (((findAllTags root ["a"]).filter (fun a => (attrOf a "href").isSome)).take
      100).filterMap (fun a =>
    let href := attrD a "href" ""
    let text := getTextStrip a
    if href ≠ "" then
      let href := if ¬ pyStartsWith href "http" then urljoin baseUrl href else href
      if netlocOf href = baseDomain then
        some { url := href, text := text }
      else Option.none
    else Option.none)

/-- `_check_mobile_viewport`. -/
def check_mobile_viewport (root : Node) : Bool :=
  (findMetaNamed root "viewport").isSome

/-- The CTA keyword list of `_extract_cta_buttons`. -/
def ctaKeywords : List String :=
  ["book", "schedule", "appointment", "contact", "call", "reserve",
   "get started", "sign up", "free consultation", "request", "order"]

/-- The raw CTA text list of `_extract_cta_buttons`, before
`list(set(...))[:10]`. -/
def ctaRaw (root : Node) : List String :=
  (((descendantsOf root).filter (fun n =>
      (tagOf n).any (fun t => t = "button" ∨ t = "a") ∧
      (attrOf n "class").isSome)).filterMap (fun btn =>
    let lowered := pyLower (getTextStrip btn)
    if ctaKeywords.any (fun kw => strContains lowered kw) then
      some (getTextStrip btn)
    else Option.none))

/-- `_extract_cta_buttons`: `list(set(cta_buttons))[:10]` under the
set-iteration order `σ`. -/
def extract_cta_buttons (σ : List String → List String) (root : Node) :
    List String :=
  (σ (ctaRaw root)).take 10

/-- The service keyword list of `_extract_services`. -/
def serviceKeywords : List String :=
  ["service", "treatment", "procedure", "offering", "specialt"]

/-- The raw services list of `_extract_services`, before
`list(set(...))[:20]`: for each `h2`/`h3`/`h4` heading whose stripped
text mentions a service keyword, the first 15 `li`/`p`/`h4`/`h5`
descendants of its nearest `section`/`div` ancestor contribute their
stripped text when its length is strictly between 5 and 100. -/
def servicesRaw (root : Node) : List String :=
  ((subNodesAncList (match root with
      | .elem _ _ cs => cs
      | .text _ => []) [root]).filter (fun p =>
    (tagOf p.1).any (fun t => t = "h2" ∨ t = "h3" ∨ t = "h4"))).flatMap
    (fun p =>
      let headingText := pyLower (getTextStrip p.1)
      if serviceKeywords.any (fun kw => strContains headingText kw) then
        match findParentTags p.2 ["section", "div"] with
        | some parent =>
            ((findAllTags parent ["li", "p", "h4", "h5"]).take 15).filterMap
              (fun item =>
                let serviceText := getTextStrip item
                if 5 < serviceText.length ∧ serviceText.length < 100 then
                  some serviceText
                else Option.none)
        | Option.none => []
      else [])

/-- `_extract_services`. -/
def extract_services (σ : List String → List String) (root : Node) :
    List String :=
  (σ (servicesRaw root)).take 20

/-- The team keyword list of `_extract_team`. -/
def teamKeywords : List String :=
  ["team", "staff", "doctor", "dr.", "provider", "specialist"]

/-- `\b` word characters. -/
def isWordChar (c : Char) : Bool :=
  c.isAlpha ∨ c.isDigit ∨ c = '_'

/-- The title abbreviations of `_extract_team`'s regex
`\b(MD|DDS|RN|NP|PA|DMD|DO)\b`. -/
def titleAbbrevs : List String := ["MD", "DDS", "RN", "NP", "PA", "DMD", "DO"]

/-- Case-insensitive search for a title abbreviation bounded by
non-word characters, modelling `re.search(r'\b(...)\b', s, re.I)`. -/
def hasTitleAbbrev (s : String) : Bool :=
  let cs := (pyLower s).toList
  (List.range (cs.length + 1)).any (fun i =>
    titleAbbrevs.any (fun ab =>
      let pat := (pyLower ab).toList
      pat.isPrefixOf (cs.drop i) ∧
      (i = 0 ∨ (cs.get? (i - 1)).all (fun c => ¬ isWordChar c)) ∧
      ((cs.get? (i + pat.length)).all (fun c => ¬ isWordChar c))))

/-- The raw team list of `_extract_team`, before `list(set(...))[:15]`. -/
def teamRaw (root : Node) : List String :=
  ((subNodesAncList (match root with
      | .elem _ _ cs => cs
      | .text _ => []) [root]).filter (fun p =>
    (tagOf p.1).any (fun t => t = "h2" ∨ t = "h3" ∨ t = "h4"))).flatMap
    (fun p =>
      let headingText := pyLower (getTextStrip p.1)
      if teamKeywords.any (fun kw => strContains headingText kw) then
        match findParentTags p.2 ["section", "div"] with
        | some parent =>
            (findAllTags parent ["p", "h4", "h5", "li"]).filterMap
              (fun el =>
                let memberText := getTextStrip el
                if hasTitleAbbrev memberText then some memberText
                else if 5 < memberText.length ∧ memberText.length < 100 ∧
                    ¬ pyStartsWith memberText "$" then
                  some memberText
                else Option.none)
        | Option.none => []
      else [])

/-- `_extract_team`. -/
def extract_team (σ : List String → List String) (root : Node) :
    List String :=
  (σ (teamRaw root)).take 15

/-- The `WebsiteProfile` dict produced by `_parse_website_content`, as a
typed structure (field order is the source's dict-literal key order). -/
structure WebsiteProfile where
  url : String
  services : List String
  prices : List PriceInfo
  team_members : List String
  meta_title : String
  meta_description : String
  h1_tags : List String
  images : List ImageInfo
  links : List LinkInfo
  has_mobile_viewport : Bool
  cta_buttons : List String
  text_length : Nat
  deriving DecidableEq

/-- `_parse_website_content` from `app/scrapers/website.py`, with the
set-iteration order `σ` of this run made explicit. -/
def parse_website_content (σ : List String → List String) (root : Node)
    (url : String) : WebsiteProfile :=
  { url := url
    services := extract_services σ root
    prices := extract_prices_web (getText root)
    team_members := extract_team σ root
    meta_title := extract_meta_title root
    meta_description := extract_meta_description root
    h1_tags := extract_h1_tags root
    images := extract_images root url
    links := extract_links root url
    has_mobile_viewport := check_mobile_viewport root
    cta_buttons := extract_cta_buttons σ root
    text_length := (getTextStrip root).length }

/-- The dict actually returned by `_parse_website_content`: the
source's dict literal, keys in source order. -/
def websiteProfileDict (p : WebsiteProfile) : List (String × PyVal) :=
  [("url", .str p.url),
   ("services", .list (p.services.map PyVal.str)),
   ("prices", .list (p.prices.map (fun pr =>
      .dict [("price", .str pr.price), ("context", .str pr.context)]))),
   ("team_members", .list (p.team_members.map PyVal.str)),
   ("meta_title", .str p.meta_title),
   ("meta_description", .str p.meta_description),
   ("h1_tags", .list (p.h1_tags.map PyVal.str)),
   ("images", .list (p.images.map (fun im =>
      .dict [("src", .str im.src), ("alt", .str im.alt),
             ("has_alt", .bool im.has_alt)]))),
   ("links", .list (p.links.map (fun l =>
      .dict [("url", .str l.url), ("text", .str l.text)]))),
   ("has_mobile_viewport", .bool p.has_mobile_viewport),
   ("cta_buttons", .list (p.cta_buttons.map PyVal.str)),
   ("text_length", .int p.text_length)]

/-- `_empty_website_data` from `app/scrapers/website.py`. -/
def empty_website_data (url : String) : List (String × PyVal) :=
  [("url", .str url),
   ("services", .list []),
   ("prices", .list []),
   ("team_members", .list []),
   ("meta_title", .str ""),
   ("meta_description", .str ""),
   ("h1_tags", .list []),
   ("images", .list []),
   ("links", .list []),
   ("has_mobile_viewport", .bool false),
   ("cta_buttons", .list []),
   ("text_length", .int 0)]

/-! ## The orchestrator (`analyze` in `app/routes/analyze.py`)

The external stages are an `Oracles` record: each field models one
fallible collaborator call, returning `Except PyExc` (an `error` is an
exception raised inside the stage).  `analyze` also returns the list of
stage invocations it performed, so that "rejects before attempting any
scraping" is a statement about the trace.  The unused local
`niche_cfg = niches_config.get(niche) ...` reads a static config file
and binds a variable that the function never uses again; it is omitted.
`processing_time_seconds` is wall-clock time and is omitted from the
response model. -/

/-- One external-stage invocation, for the effect trace. -/
inductive Ev where
  | discovery
  | website
  | grade
  | instagram
  | ai
  | db
  deriving DecidableEq

/-- The fallible collaborators of the orchestrator. -/
structure Oracles where
  scrapeGoogleMaps : String → String → Int →
    Except PyExc (List (List (String × PyVal)))
  scrapeWebsite : PyVal → Except PyExc (List (String × PyVal))
  gradeWebsite : List (String × PyVal) → Except PyExc PyVal
  scrapeInstagram : PyVal → PyVal → Except PyExc PyVal
  analyzeBusiness : List (String × PyVal) → String → Except PyExc PyVal
  saveToDb : List (String × PyVal) → PyVal → PyVal → Except PyExc Unit

/-- The JSON request body (restricted to well-typed fields: string
niche/location, integer bound — the shapes the claims quantify over). -/
structure ReqBody where
  niche : Option String
  location : Option String
  max_results : Option Int

/-- The endpoint's outcome: a 400 rejection or the success payload
(`niche`, `location`, `results_count`, `businesses`). -/
inductive ApiResult where
  | clientError (code : Nat) (msg : String)
  | success (niche location : String) (resultsCount : Nat)
    (businesses : List (List (String × PyVal)))

/-- The per-candidate body of the orchestrator loop (analyze.py lines
113–169), returning the built `business_result` record and the trace of
stage invocations. -/
def processCandidate (o : Oracles) (niche location : String)
    (raw : List (String × PyVal)) : List (String × PyVal) × List Ev :=
  -- business_result = dict(raw); ["niche"]/["location"] assignments
  let br := dictSet (dictSet raw "niche" (.str niche)) "location" (.str location)
  -- stage 2: website scrape, guarded by `if raw.get("website")`
  let rawWebsite := pyGetD raw "website" .none
  let (websiteData, evWeb) :=
    if truthy rawWebsite then
      match o.scrapeWebsite rawWebsite with
      | .ok v => (v, [Ev.website])      -- `or {}` leaves a dict unchanged ({} stays {})
      | .error _ => (([] : List (String × PyVal)), [Ev.website])
    else ([], [])
  let br := dictSet br "services" (pyGetD websiteData "services" (.list []))
  let br := dictSet br "prices" (pyGetD websiteData "prices" (.list []))
  let br := dictSet br "team_members" (pyGetD websiteData "team_members" (.list []))
  -- stage 2.5: grading, guarded by `if website_data`
  let (websiteGrade, evGrade) :=
    if ¬ websiteData.isEmpty then
      match o.gradeWebsite websiteData with
      | .ok g => (g, [Ev.grade])
      | .error _ => (PyVal.dict [], [Ev.grade])
    else (PyVal.dict [], [])
  let br := dictSet br "website_grade" websiteGrade
  -- stage 3: Instagram (always attempted)
  let igData :=
    match o.scrapeInstagram (pyGetD raw "name" (.str ""))
        (pyGetD websiteData "instagram_url" .none) with
    | .ok v => v
    | .error _ => PyVal.none
  let br := dictSet br "instagram" igData
  -- stage 4: AI analysis (always attempted, on the record built so far)
  let analysisResult :=
    match o.analyzeBusiness br niche with
    | .ok v => v
    | .error _ => PyVal.dict []
  let br := dictSet br "analysis" analysisResult
  -- stage 5: persistence (always attempted; failure rolls back and the
  -- record is still appended)
  let _ := o.saveToDb br igData analysisResult
  (br, evWeb ++ evGrade ++ [Ev.instagram, Ev.ai, Ev.db])

/-- `analyze` from `app/routes/analyze.py`: validation, discovery, the
per-candidate loop, and the success payload. -/
def analyze (o : Oracles) (body : ReqBody) : ApiResult × List Ev :=
  let niche := pyStrip (body.niche.getD "")
  let location := pyStrip (body.location.getD "")
  let maxResults := body.max_results.getD 10
  if niche = "" then (.clientError 400 "niche is required", [])
  else if location = "" then (.clientError 400 "location is required", [])
  else if maxResults < 1 ∨ maxResults > 50 then
    (.clientError 400 "max_results must be between 1 and 50", [])
  else
    let (rawBusinesses, evDisc) :=
      match o.scrapeGoogleMaps niche location maxResults with
      | .ok rs => (rs, [Ev.discovery])
      | .error _ => ([], [Ev.discovery])
    let step := rawBusinesses.foldl
      (fun (acc : List (List (String × PyVal)) × List Ev) raw =>
        let r := processCandidate o niche location raw
        (acc.1 ++ [r.1], acc.2 ++ r.2))
      ([], evDisc)
    (.success niche location step.1.length step.1, step.2)

/-! ## Claim theorems -/

/-- **C4** — Engagement-rate computation (`_calculate_engagement`,
`app/scrapers/instagram.py`): for a profile with `followers = f > 0`
whose post retrieval yields a nonempty post list, the rate is
`(mean(likes) + mean(comments)) / f * 100` over at most the 12 most
recent posts, rounded to 2 decimals; with `f = 0`, or when post
retrieval yields zero posts, the rate is `0.0`. -/
theorem engagement_rate_correct (f : Nat) (posts : List (Nat × Nat))
    (hf : 0 < f) (hp : posts ≠ []) :
    (calculate_engagement f (.ok posts) =
      pyRound2 (((((posts.take 12).map (fun p => (p.1 : Rat))).sum /
            ((posts.take 12).length : Rat)) +
          (((posts.take 12).map (fun p => (p.2 : Rat))).sum /
            ((posts.take 12).length : Rat))) / (f : Rat) * 100)) ∧
    (∀ pr, calculate_engagement 0 pr = 0) ∧
    (calculate_engagement f (.ok []) = 0) := by
  refine ⟨?_, ?_, ?_⟩
  · have hne : (posts.take 12).isEmpty = false := by
      cases posts with
      | nil => exact absurd rfl hp
      | cons a l => simp [List.take]
    simp [calculate_engagement, Nat.pos_iff_ne_zero.mp hf, hne]
  · intro pr
    simp [calculate_engagement]
  · simp [calculate_engagement]

/-- Witness for C4, at the spec's own example: followers 1000, twelve
posts with 100 likes and 20 comments each give the rate 12. -/
theorem engagement_rate_correct_witness :
    0 < 1000 ∧ List.replicate 12 ((100 : Nat), (20 : Nat)) ≠ [] ∧
    calculate_engagement 1000 (.ok (List.replicate 12 (100, 20))) =
      pyRound2 ((((((List.replicate 12 ((100 : Nat), (20 : Nat))).take 12).map
            (fun p => (p.1 : Rat))).sum /
            (((List.replicate 12 ((100 : Nat), (20 : Nat))).take 12).length : Rat)) +
          ((((List.replicate 12 ((100 : Nat), (20 : Nat))).take 12).map
            (fun p => (p.2 : Rat))).sum /
            (((List.replicate 12 ((100 : Nat), (20 : Nat))).take 12).length : Rat))) /
          ((1000 : Nat) : Rat) * 100) ∧
    calculate_engagement 1000 (.ok (List.replicate 12 (100, 20))) = 12 :=
  ⟨by norm_num, by simp,
   (engagement_rate_correct 1000 (List.replicate 12 (100, 20))
      (by norm_num) (by simp)).1,
   by
    rw [(engagement_rate_correct 1000 (List.replicate 12 (100, 20))
      (by norm_num) (by simp)).1]
    norm_num [pyRound2, pyRoundInt, List.take_replicate, List.map_replicate,
      List.sum_replicate, nsmul_eq_mul]⟩

/-- **C8** — Username-candidate generation
(`generate_instagram_usernames`, `app/scrapers/utils.py`): the first
candidate is the lower-cased alphanumeric-stripped name; the stop-word
stripped form is appended only when nonempty and different from the
first; the 20-character truncation is appended only when the base
exceeds 20 characters.  On "The Glow Medspa & Co." the candidates are
`["theglowmedspaco", "glowmedsp"]`: the second differs from the first
and contains neither "the" nor "co". -/
theorem username_generation_correct (name : String) :
    (generate_instagram_usernames name =
      [usernameBase name] ++
      (if usernameShort (usernameBase name) ≠ "" ∧
          usernameShort (usernameBase name) ≠ usernameBase name then
        [usernameShort (usernameBase name)] else []) ++
      (if (usernameBase name).length > 20 then
        [pyTakeStr (usernameBase name) 20] else [])) ∧
    (generate_instagram_usernames "The Glow Medspa & Co." =
      ["theglowmedspaco", "glowmedsp"]) ∧
    usernameBase "The Glow Medspa & Co." = "theglowmedspaco" ∧
    ("glowmedsp" ≠ "theglowmedspaco" ∧
      strContains "glowmedsp" "the" = false ∧
      strContains "glowmedsp" "co" = false) := by
  refine ⟨?_, by decide, by decide, by decide⟩
  unfold generate_instagram_usernames
  by_cases h1 : usernameShort (usernameBase name) ≠ "" ∧
      usernameShort (usernameBase name) ≠ usernameBase name <;>
    by_cases h2 : (usernameBase name).length > 20 <;>
      simp [h1, h2]

/-- An oracle assignment in which every collaborator raises; used to
instantiate universally-quantified oracle arguments in witnesses. -/
def failingOracles : Oracles where
  scrapeGoogleMaps := fun _ _ _ => .error .other
  scrapeWebsite := fun _ => .error .other
  gradeWebsite := fun _ => .error .other
  scrapeInstagram := fun _ _ => .error .other
  analyzeBusiness := fun _ _ => .error .other
  saveToDb := fun _ _ _ => .error .other

/-- **C2** — Batch-boundary validation (`analyze`,
`app/routes/analyze.py` lines 83–95): when the niche or the location is
empty after trimming, or the integer bound lies outside [1, 50], the
endpoint returns a 400 error, performs no external-stage call at all
(empty effect trace, for every oracle assignment — so no discovery,
scraping or persistence is attempted), and in particular never returns
a success payload with a clamped bound. -/
theorem validation_rejects_before_scraping (body : ReqBody)
    (h : pyStrip (body.niche.getD "") = "" ∨
         pyStrip (body.location.getD "") = "" ∨
         body.max_results.getD 10 < 1 ∨ body.max_results.getD 10 > 50) :
    ∀ o : Oracles,
      (∃ msg, (analyze o body).1 = .clientError 400 msg) ∧
      (analyze o body).2 = [] := by
  intro o
  by_cases h1 : pyStrip (body.niche.getD "") = ""
  · constructor
    · exact ⟨"niche is required", by simp [analyze, h1]⟩
    · simp [analyze, h1]
  · by_cases h2 : pyStrip (body.location.getD "") = ""
    · constructor
      · exact ⟨"location is required", by simp [analyze, h1, h2]⟩
      · simp [analyze, h1, h2]
    · have h3 : body.max_results.getD 10 < 1 ∨ body.max_results.getD 10 > 50 := by
        tauto
      constructor
      · exact ⟨"max_results must be between 1 and 50", by simp [analyze, h1, h2, h3]⟩
      · simp [analyze, h1, h2, h3]

/-- Witness for C2: a request with a zero bound is rejected with no
stage invoked. -/
theorem validation_rejects_before_scraping_witness :
    (pyStrip ((ReqBody.mk (some "medspas") (some "Austin, TX")
        (some 0)).niche.getD "") = "" ∨
     pyStrip ((ReqBody.mk (some "medspas") (some "Austin, TX")
        (some 0)).location.getD "") = "" ∨
     (ReqBody.mk (some "medspas") (some "Austin, TX")
        (some 0)).max_results.getD 10 < 1 ∨
     (ReqBody.mk (some "medspas") (some "Austin, TX")
        (some 0)).max_results.getD 10 > 50) ∧
    ((∃ msg, (analyze failingOracles
        (ReqBody.mk (some "medspas") (some "Austin, TX") (some 0))).1 =
        .clientError 400 msg) ∧
     (analyze failingOracles
        (ReqBody.mk (some "medspas") (some "Austin, TX") (some 0))).2 = []) :=
  ⟨Or.inr (Or.inr (Or.inl (by decide))),
   validation_rejects_before_scraping
     (ReqBody.mk (some "medspas") (some "Austin, TX") (some 0))
     (Or.inr (Or.inr (Or.inl (by decide)))) failingOracles⟩

/-- Characterization of the discovery loop: it returns the accumulated
results extended by the good businesses of the not-yet-seen listings,
truncated to the remaining budget. -/
theorem gmapsLoop_eq (n : Int) (ls : List Listing) :
    ∀ (seen : List String) (res : List (List (String × PyVal))),
      gmapsLoop n ls seen res =
        res ++ ((dedupByHref seen ls).filterMap goodListing).take
          ((n - res.length).toNat) := by
  induction ls with
  | nil => intro seen res; simp [gmapsLoop, dedupByHref]
  | cons l rest ih =>
    intro seen res
    by_cases hfull : (res.length : Int) ≥ n
    · have : (n - res.length).toNat = 0 := by omega
      simp [gmapsLoop, hfull, this]
    · by_cases hseen : l.href ∈ seen
      · simp [gmapsLoop, hfull, hseen, dedupByHref, ih]
      · match hg : l.clicked with
        | .error e =>
          have hgood : goodListing l = Option.none := by simp [goodListing, hg]
          simp [gmapsLoop, hfull, hseen, hg, dedupByHref, ih, hgood]
        | .ok business =>
          by_cases hname : truthy (pyGetD business "name" PyVal.none)
          · have hgood : goodListing l = some business := by
              simp [goodListing, hg, hname]
            have hlen : (n - res.length).toNat = ((n - (res.length + 1)).toNat) + 1 := by
              omega
            simp only [gmapsLoop, if_neg (by omega : ¬ (res.length : Int) ≥ n),
              if_neg hseen, hg, if_pos hname, dedupByHref, ih,
              List.filterMap_cons, hgood]
            rw [hlen]
            simp [List.take_succ_cons]
          · have hgood : goodListing l = Option.none := by
              simp [goodListing, hg, hname]
            simp [gmapsLoop, hfull, hseen, hg, hname, dedupByHref, ih, hgood]

/-- **C5** — Listing discovery (`scrape_google_maps`,
`app/scrapers/google_maps.py`): for every bound `n` in [1, 50] the
returned sequence is the discovery-ordered list of successfully-clicked
candidates with a truthy name, deduplicated on the listing `href`
(first occurrence kept), truncated to `n`; its length is therefore ≤ n,
every returned candidate has a non-empty name, and a total discovery
failure yields the empty sequence. -/
theorem discovery_bound_dedup_drop (n : Int) (listings : List Listing)
    (e : PyExc) (h1 : 1 ≤ n) (h2 : n ≤ 50) :
    (scrape_google_maps n (.ok listings) =
      ((dedupByHref [] listings).filterMap goodListing).take n.toNat) ∧
    (scrape_google_maps n (.ok listings)).length ≤ n.toNat ∧
    (∀ b ∈ scrape_google_maps n (.ok listings),
      truthy (pyGetD b "name" PyVal.none) = true) ∧
    scrape_google_maps n (.error e) = [] := by
  have hchar : scrape_google_maps n (.ok listings) =
      ((dedupByHref [] listings).filterMap goodListing).take n.toNat := by
    have := gmapsLoop_eq n listings [] []
    simpa [scrape_google_maps] using this
  refine ⟨hchar, ?_, ?_, by simp [scrape_google_maps]⟩
  · rw [hchar]; exact (List.length_take _ _).trans_le (by omega)
  · intro b hb
    rw [hchar] at hb
    have hb' := List.mem_of_mem_take hb
    obtain ⟨l, _, hgood⟩ := List.mem_filterMap.mp hb'
    unfold goodListing at hgood
    match hgc : l.clicked with
    | .error _ => rw [hgc] at hgood; simp at hgood
    | .ok business =>
      rw [hgc] at hgood
      by_cases hname : truthy (pyGetD business "name" PyVal.none)
      · simp [hname] at hgood
        subst hgood
        exact hname
      · simp [hname] at hgood

/-- Witness for C5, on a concrete feed: a duplicate `href`, a failed
click, a nameless candidate and a budget of 2 exercise every branch. -/
theorem discovery_bound_dedup_drop_witness :
    (1 ≤ (2 : Int)) ∧ ((2 : Int) ≤ 50) ∧
    (scrape_google_maps 2 (.ok
      [⟨"h1", .ok [("name", .str "A")]⟩,
       ⟨"h1", .ok [("name", .str "Dup")]⟩,
       ⟨"h2", .error .other⟩,
       ⟨"h3", .ok [("name", .str "")]⟩,
       ⟨"h4", .ok [("name", .str "B")]⟩,
       ⟨"h5", .ok [("name", .str "C")]⟩]) =
      ((dedupByHref []
        [⟨"h1", .ok [("name", .str "A")]⟩,
         ⟨"h1", .ok [("name", .str "Dup")]⟩,
         ⟨"h2", .error .other⟩,
         ⟨"h3", .ok [("name", .str "")]⟩,
         ⟨"h4", .ok [("name", .str "B")]⟩,
         ⟨"h5", .ok [("name", .str "C")]⟩]).filterMap goodListing).take
        (2 : Int).toNat) ∧
    scrape_google_maps 2 (.ok
      [⟨"h1", .ok [("name", .str "A")]⟩,
       ⟨"h1", .ok [("name", .str "Dup")]⟩,
       ⟨"h2", .error .other⟩,
       ⟨"h3", .ok [("name", .str "")]⟩,
       ⟨"h4", .ok [("name", .str "B")]⟩,
       ⟨"h5", .ok [("name", .str "C")]⟩]) =
      [[("name", .str "A")], [("name", .str "B")]] :=
  ⟨by decide, by decide,
   (discovery_bound_dedup_drop 2 _ .other (by decide) (by decide)).1,
   by rfl⟩

/-- Oracles exercising both degradation paths of the grading stage: the
first candidate has no website (grading skipped), the second's website
scrape succeeds but grading and AI analysis raise. -/
def twoPathOracles : Oracles where
  scrapeGoogleMaps := fun _ _ _ => .ok
    [[("name", .str "A")],
     [("name", .str "B"), ("website", .str "https://b.example")]]
  scrapeWebsite := fun _ => .ok [("url", .str "https://b.example")]
  gradeWebsite := fun _ => .error .other
  scrapeInstagram := fun _ _ => .error .other
  analyzeBusiness := fun _ _ => .error .other
  saveToDb := fun _ _ _ => .ok ()

/-- A well-formed batch request for the concrete runs. -/
def simpleBody : ReqBody := ⟨some "medspas", some "Austin, TX", some 10⟩

/-- The record list of a success result. -/
def businessesOf : ApiResult → List (List (String × PyVal))
  | .success _ _ _ bs => bs
  | .clientError _ _ => []

/-- **C10** — The two degradation paths produce unequal record shapes
(`analyze` in `app/routes/analyze.py` defaults `website_grade` and
`analysis` to the bare `{}`, while the clients' own internal-failure
value is `_empty_grade()`/`_empty_analysis()` with zero/empty fields):
in a concrete run, the no-website candidate and the grading-raised
candidate both carry `website_grade = {}` and the analysis-raised
candidate carries `analysis = {}`, and `{}` differs from both canonical
empty results, so callers cannot rely on one fixed empty shape. -/
theorem empty_shape_divergence :
    ((businessesOf (analyze twoPathOracles simpleBody).1).get? 0).map
        (fun r => pyGetD r "website_grade" .none) = some (.dict []) ∧
    ((businessesOf (analyze twoPathOracles simpleBody).1).get? 1).map
        (fun r => pyGetD r "website_grade" .none) = some (.dict []) ∧
    ((businessesOf (analyze twoPathOracles simpleBody).1).get? 0).map
        (fun r => pyGetD r "analysis" .none) = some (.dict []) ∧
    PyVal.dict [] ≠ empty_grade ∧
    PyVal.dict [] ≠ empty_analysis := by
  refine ⟨rfl, rfl, rfl, ?_, ?_⟩ <;> simp [empty_grade, empty_analysis]

/-- The token shape actually matched by the price regex
`\$[\d,]+(?:\.\d{2})?`: a dollar sign, then one or more digit-or-comma
characters, then either nothing or a dot with exactly two digits. -/
def priceShape (s : String) : Bool :=
  match s.toList with
  | c :: rest =>
      let run := rest.takeWhile isDigitOrComma
      let tl := rest.drop run.length
      c = '$' && !run.isEmpty && (tl.isEmpty || (decTailMatches tl && tl.length == 3))
  | [] => false

/-- `takeWhile` skips over a block that satisfies the predicate
throughout. -/
theorem takeWhile_append_all {p : Char → Bool} {l₁ l₂ : List Char}
    (h : ∀ a ∈ l₁, p a = true) :
    (l₁ ++ l₂).takeWhile p = l₁ ++ l₂.takeWhile p := by
  induction l₁ with
  | nil => simp
  | cons a l ih =>
    have ha := h a (List.mem_cons_self a l)
    simp [List.takeWhile, ha, ih (fun b hb => h b (List.mem_cons_of_mem a hb))]

/-- Destructor for a successful decimal-tail match. -/
theorem decTailMatches_eq_true (l : List Char) (h : decTailMatches l = true) :
    ∃ d1 d2 tail, l = '.' :: d1 :: d2 :: tail ∧
      d1.isDigit = true ∧ d2.isDigit = true := by
  match l with
  | [] => simp [decTailMatches] at h
  | [c] => simp [decTailMatches] at h
  | [c, d] => simp [decTailMatches] at h
  | c :: d1 :: d2 :: tail =>
    simp only [decTailMatches, Bool.and_eq_true, decide_eq_true_eq] at h
    exact ⟨d1, d2, tail, by rw [h.1.1], h.1.2, h.2⟩

/-- Unfolding lemma for `priceShape` on a nonempty character list. -/
theorem priceShape_cons (c : Char) (l : List Char) :
    priceShape (String.mk (c :: l)) =
      (c = '$' && !(l.takeWhile isDigitOrComma).isEmpty &&
        ((l.drop (l.takeWhile isDigitOrComma).length).isEmpty ||
         (decTailMatches (l.drop (l.takeWhile isDigitOrComma).length) &&
          (l.drop (l.takeWhile isDigitOrComma).length).length == 3))) := rfl

/-- The string matched by `priceMatchAt` has the regex's token shape. -/
theorem priceMatchAt_shape (cs : List Char) (len : Nat)
    (h : priceMatchAt cs = some len) :
    priceShape (String.mk (cs.take len)) = true := by
  match cs with
  | [] => simp [priceMatchAt] at h
  | c :: rest =>
    rw [priceMatchAt] at h
    by_cases hc : c = '$'
    case neg => rw [if_neg hc] at h; exact absurd h (by simp)
    rw [if_pos hc] at h
    subst hc
    set run := rest.takeWhile isDigitOrComma with hrun
    by_cases hre : run.isEmpty
    · rw [if_pos hre] at h; exact absurd h (by simp)
    rw [if_neg hre] at h
    have hallrun : ∀ a ∈ run, isDigitOrComma a = true := by
      intro a ha; exact List.mem_takeWhile_imp (hrun ▸ ha)
    have hpre : run = rest.take run.length := by
      have := List.takeWhile_prefix (l := rest) (p := isDigitOrComma)
      exact List.prefix_iff_eq_take.mp (hrun ▸ this)
    have hself : run.takeWhile isDigitOrComma = run :=
      List.takeWhile_eq_self_iff.mpr hallrun
    by_cases hdt : decTailMatches (rest.drop run.length)
    · rw [if_pos hdt] at h
      obtain ⟨d1, d2, tail, hdrop, hd1, hd2⟩ := decTailMatches_eq_true _ hdt
      have hlen : len = 1 + run.length + 3 := by
        have := Option.some.inj h; omega
      subst hlen
      have hsplit : rest = run ++ rest.drop run.length := by
        conv_lhs => rw [← List.take_append_drop run.length rest, ← hpre]
      have htail : rest.take (run.length + 3) = run ++ ['.', d1, d2] := by
        conv_lhs => rw [hsplit, hdrop]
        rw [List.take_append_eq_append_take]
        simp
      have he : 1 + run.length + 3 = (run.length + 3) + 1 := by omega
      rw [he, List.take_succ_cons, htail]
      have htw : (run ++ ['.', d1, d2]).takeWhile isDigitOrComma = run := by
        rw [takeWhile_append_all hallrun]
        simp [List.takeWhile, isDigitOrComma]
      rw [priceShape_cons, htw, List.drop_left]
      simp [decTailMatches, hre, hd1, hd2]
    · rw [if_neg hdt] at h
      have hlen : len = 1 + run.length := by
        have := Option.some.inj h; omega
      subst hlen
      have he : 1 + run.length = run.length + 1 := by omega
      rw [he, List.take_succ_cons, ← hpre]
      rw [priceShape_cons, hself, List.drop_length]
      simp [hre]

/-- Every match reported by the scanner is a match of the price regex
at its position. -/
theorem priceScan_sound (full : List Char) :
    ∀ (fuel pos : Nat) (m : Nat × Nat), m ∈ priceScan full fuel pos →
      priceMatchAt (full.drop m.1) = some m.2 := by
  intro fuel
  induction fuel with
  | zero => intro pos m hm; simp [priceScan] at hm
  | succ fuel ih =>
    intro pos m hm
    rw [priceScan] at hm
    by_cases hend : pos ≥ full.length
    · rw [if_pos hend] at hm; simp at hm
    · rw [if_neg hend] at hm
      match hma : priceMatchAt (full.drop pos) with
      | some len =>
          rw [hma] at hm
          rcases List.mem_cons.mp hm with hm | hm
          · subst hm; exact hma
          · exact ih _ _ hm
      | Option.none =>
          rw [hma] at hm
          exact ih _ _ hm

/-- **C6** (counterexample) — `_extract_prices`
(`app/scrapers/website.py`) does not deduplicate: on `"$5 $5"` the same
price string in two context-identical windows yields two equal entries;
and its regex `\$[\d,]+(?:\.\d{2})?` matches `"$399,"` (with the
trailing comma) on the spec's own example text, not a
thousands-separated dollar amount. -/
theorem price_extraction_claim_false :
    (extract_prices_web "$5 $5").get? 0 = some ⟨"$5", "$5 $5"⟩ ∧
    (extract_prices_web "$5 $5").get? 1 = some ⟨"$5", "$5 $5"⟩ ∧
    ¬ (extract_prices_web "$5 $5").Nodup ∧
    (extract_prices_web "Botox $399, Filler $650.00").map PriceInfo.price =
      ["$399,", "$650.00"] := by
  refine ⟨rfl, rfl, by decide, rfl⟩

/-- **C6** (amended) — Price extraction over a page's visible text
matches `$` followed by one or more digit-or-comma characters with an
optional exactly-two-digit decimal part, attaches the ±50-character
stripped context window to each match, caps the result at 20, and does
NOT deduplicate; on "Botox $399, Filler $650.00" it yields exactly the
two matches "$399," and "$650.00", each carrying the whole (short) text
as context. -/
theorem price_extraction_amended (text : String) (p : PriceInfo)
    (hp : p ∈ extract_prices_web text) :
    (extract_prices_web text).length ≤ 20 ∧
    priceShape p.price = true ∧
    extract_prices_web "Botox $399, Filler $650.00" =
      [⟨"$399,", "Botox $399, Filler $650.00"⟩,
       ⟨"$650.00", "Botox $399, Filler $650.00"⟩] := by
  refine ⟨List.length_take_le _ _, ?_, rfl⟩
  rw [extract_prices_web] at hp
  have hp' := List.mem_of_mem_take hp
  obtain ⟨m, hm, hfm⟩ := List.mem_map.mp hp'
  have hmatch := priceScan_sound text.toList _ _ _ hm
  have : p.price = String.mk ((text.toList.drop m.1).take m.2) := by
    rw [← hfm]
  rw [this]
  exact priceMatchAt_shape _ _ hmatch

/-- Witness for the amended C6, at the spec's example text and its
first match "$399,". -/
theorem price_extraction_amended_witness :
    (⟨"$399,", "Botox $399, Filler $650.00"⟩ : PriceInfo) ∈
      extract_prices_web "Botox $399, Filler $650.00" ∧
    (extract_prices_web "Botox $399, Filler $650.00").length ≤ 20 ∧
    priceShape "$399," = true :=
  ⟨by decide,
   (price_extraction_amended "Botox $399, Filler $650.00"
      ⟨"$399,", "Botox $399, Filler $650.00"⟩ (by decide)).1,
   (price_extraction_amended "Botox $399, Filler $650.00"
      ⟨"$399,", "Botox $399, Filler $650.00"⟩ (by decide)).2.1⟩

/-- A well-formed chat-completions reply whose message content is
`content`. -/
def mkChatReply (content : String) : PyVal :=
  .dict [("choices", .list [.dict [("message", .dict [("content", .str content)])]])]

/-- **C3** (counterexample) — both clients raise to their caller on a
reply whose body is valid JSON but not the expected structure: a JSON
array body makes `analyze_business` raise `AttributeError` (at
`data.get`, not in the `except` tuple), and a non-numeric
`total_score` makes `grade_website` raise `ValueError` (at `int(...)`),
instead of returning the canonical empty result. -/
theorem clients_raise_on_unexpected_structure :
    analyze_business "key" (.resp 200 (some (mkChatReply "[1, 2, 3]"))) =
      .error .attributeError ∧
    grade_website "key" (.dict [("url", .str "https://x.example")])
      (.resp 200 (some (mkChatReply "\x7b\"total_score\": \"high\"\x7d"))) =
      .error .valueError :=
  ⟨rfl, rfl⟩

/-- **C3** (amended) — both clients short-circuit to their canonical
empty result on a missing credential (for every transport, so no
network call is attempted), and return it on a transport exception, a
non-success status, and a reply body that is not decodable as JSON
(also after fence stripping); but a body that decodes to JSON of an
unexpected structure, or with uncoercible fields, raises to the caller
(see the counterexample). -/
theorem assessment_clients_degrade_amended
    (k content : String) (t : Transport) (status : Nat) (b : Option PyVal)
    (xs : List (String × PyVal)) (hk : k ≠ "")
    (hxs : xs.isEmpty = false) (hurl : truthy (pyGetD xs "url" .none) = true)
    (hbad : jsonLoads (stripFences content) = .error .jsonDecodeError)
    (hst : status ≠ 200) :
    analyze_business "" t = .ok empty_analysis ∧
    analyze_business k .exn = .ok empty_analysis ∧
    analyze_business k (.resp status b) = .ok empty_analysis ∧
    analyze_business k (.resp 200 Option.none) = .ok empty_analysis ∧
    analyze_business k (.resp 200 (some (mkChatReply content))) =
      .ok empty_analysis ∧
    grade_website "" (.dict xs) t = .ok empty_grade ∧
    grade_website k (.dict xs) .exn = .ok empty_grade ∧
    grade_website k (.dict xs) (.resp status b) = .ok empty_grade ∧
    grade_website k (.dict xs) (.resp 200 Option.none) = .ok empty_grade ∧
    grade_website k (.dict xs) (.resp 200 (some (mkChatReply content))) =
      .ok empty_grade := by
  have htruthy : truthy (.dict xs) = true := by simp [truthy, hxs]
  have hnone : clientTryBlock parse_analysis Option.none =
      .error .jsonDecodeError := rfl
  have hnoneG : clientTryBlock parse_grade Option.none =
      .error .jsonDecodeError := rfl
  have hpa : parse_analysis content = .error .jsonDecodeError := by
    unfold parse_analysis
    rw [hbad]
    rfl
  have hpg : parse_grade content = .error .jsonDecodeError := by
    unfold parse_grade
    rw [hbad]
    rfl
  have hcb : ∀ f : String → Except PyExc PyVal,
      clientTryBlock f (some (mkChatReply content)) = f content := fun f => rfl
  have hblock : clientTryBlock parse_analysis (some (mkChatReply content)) =
      .error .jsonDecodeError := (hcb parse_analysis).trans hpa
  have hblockG : clientTryBlock parse_grade (some (mkChatReply content)) =
      .error .jsonDecodeError := (hcb parse_grade).trans hpg
  refine ⟨by simp [analyze_business], by simp [analyze_business, hk],
    by simp [analyze_business, hk, hst],
    by simp [analyze_business, hk, hnone, caughtByClients],
    by simp [analyze_business, hk, hblock, caughtByClients],
    by simp [grade_website], ?_, ?_, ?_, ?_⟩ <;>
    simp [grade_website, hk, hst, htruthy, pyDotGetD, hurl, hnoneG, hblockG,
      caughtByClients]

/-- Witness for the amended C3 at concrete inputs: key "key", an
un-decodable body "not json", status 500, and a one-key website dict. -/
theorem assessment_clients_degrade_amended_witness :
    ("key" ≠ "") ∧
    ([(("url" : String), PyVal.str "https://x.example")].isEmpty = false) ∧
    (truthy (pyGetD [("url", PyVal.str "https://x.example")] "url" .none) = true) ∧
    (jsonLoads (stripFences "not json") = .error .jsonDecodeError) ∧
    ((500 : Nat) ≠ 200) ∧
    analyze_business "" .exn = .ok empty_analysis ∧
    analyze_business "key" (.resp 500 Option.none) = .ok empty_analysis ∧
    analyze_business "key" (.resp 200 (some (mkChatReply "not json"))) =
      .ok empty_analysis ∧
    grade_website "key" (.dict [("url", PyVal.str "https://x.example")])
      (.resp 200 (some (mkChatReply "not json"))) = .ok empty_grade := by
  have h := assessment_clients_degrade_amended "key" "not json" .exn 500
    Option.none [("url", PyVal.str "https://x.example")]
    (by decide) (by decide) (by decide) rfl (by decide)
  exact ⟨by decide, by decide, by decide, rfl, by decide,
    h.1, h.2.2.1, h.2.2.2.2.1, h.2.2.2.2.2.2.2.2.2⟩

/-- The record produced for a candidate when every enrichment stage
raises: the raw fields plus the niche/location tags and each stage's
default output (`[]`, `{}`, `None`). -/
def failedRecord (niche location : String) (raw : List (String × PyVal)) :
    List (String × PyVal) :=
  dictSet (dictSet (dictSet (dictSet (dictSet (dictSet (dictSet (dictSet raw
    "niche" (.str niche)) "location" (.str location))
    "services" (.list [])) "prices" (.list [])) "team_members" (.list []))
    "website_grade" (.dict [])) "instagram" .none) "analysis" (.dict [])

/-- The keys written by the enrichment stages. -/
def enrichmentKeys : List String :=
  ["niche", "location", "services", "prices", "team_members",
   "website_grade", "instagram", "analysis"]

/-- Setting one key leaves the others' lookups unchanged. -/
theorem pyLookup_dictSet_ne (d : List (String × PyVal)) (k k' : String)
    (v : PyVal) (h : k ≠ k') : pyLookup (dictSet d k' v) k = pyLookup d k := by
  induction d with
  | nil => simp [dictSet, pyLookup, Ne.symm h]
  | cons p rest ih =>
    by_cases hp : p.1 = k'
    · simp [dictSet, hp, pyLookup, Ne.symm h]
    · by_cases hk : p.1 = k
      · simp [dictSet, hp, pyLookup, hk, h]
      · simp [dictSet, hp, pyLookup, hk, ih]

/-- When every enrichment stage raises, the candidate's record is the
defaulted record. -/
theorem processCandidate_allfail (o : Oracles) (niche location : String)
    (raw : List (String × PyVal))
    (hw : ∀ u, ∃ e, o.scrapeWebsite u = .error e)
    (hg : ∀ d, ∃ e, o.gradeWebsite d = .error e)
    (hi : ∀ a b, ∃ e, o.scrapeInstagram a b = .error e)
    (ha : ∀ d s, ∃ e, o.analyzeBusiness d s = .error e) :
    (processCandidate o niche location raw).1 =
      failedRecord niche location raw := by
  have hmW : ∀ u, (match o.scrapeWebsite u with
      | .ok v => (v, [Ev.website])
      | .error _ => (([] : List (String × PyVal)), [Ev.website])) =
      (([] : List (String × PyVal)), [Ev.website]) := by
    intro u; obtain ⟨e, he⟩ := hw u; rw [he]
  have hmG : ∀ d, (match o.gradeWebsite d with
      | .ok g => (g, [Ev.grade])
      | .error _ => (PyVal.dict [], [Ev.grade])) =
      (PyVal.dict [], [Ev.grade]) := by
    intro d; obtain ⟨e, he⟩ := hg d; rw [he]
  have hmI : ∀ a b, (match o.scrapeInstagram a b with
      | .ok v => v
      | .error _ => PyVal.none) = PyVal.none := by
    intro a b; obtain ⟨e, he⟩ := hi a b; rw [he]
  have hmA : ∀ d s, (match o.analyzeBusiness d s with
      | .ok v => v
      | .error _ => PyVal.dict []) = PyVal.dict [] := by
    intro d s; obtain ⟨e, he⟩ := ha d s; rw [he]
  by_cases hweb : truthy (pyGetD raw "website" PyVal.none)
  · have hweb' : truthy ((pyLookup raw "website").getD PyVal.none) = true := by
      simpa [pyGetD] using hweb
    simp [processCandidate, hweb', hmW, hmG, hmI, hmA,
      failedRecord, pyGetD, pyLookup]
  · have hweb' : truthy ((pyLookup raw "website").getD PyVal.none) = false := by
      have := eq_false_of_ne_true hweb
      simpa [pyGetD] using this
    simp [processCandidate, hweb', hmG, hmI, hmA,
      failedRecord, pyGetD, pyLookup]

/-- The orchestrator loop accumulates one record per candidate, in
order. -/
theorem analyze_foldl_records (o : Oracles) (niche location : String) :
    ∀ (raws : List (List (String × PyVal)))
      (acc : List (List (String × PyVal)) × List Ev),
      (raws.foldl (fun acc raw =>
        let r := processCandidate o niche location raw
        (acc.1 ++ [r.1], acc.2 ++ r.2)) acc).1 =
      acc.1 ++ raws.map (fun raw => (processCandidate o niche location raw).1) := by
  intro raws
  induction raws with
  | nil => intro acc; simp
  | cons raw rest ih =>
    intro acc
    simp only [List.foldl_cons, List.map_cons, ih]
    simp

/-- **C1** — The orchestrator (`analyze`, `app/routes/analyze.py`)
isolates every stage failure: for a validated request whose discovery
yields `raws`, even when website extraction, grading, social
resolution, AI assessment and persistence raise on every input, the
endpoint returns success with exactly one record per discovered
candidate, in discovery order, each record being the candidate's raw
dict extended with the niche/location tags and each stage's
empty/absent default; the raw candidate fields are carried unchanged
(lookups at non-enrichment keys are untouched). -/
theorem orchestrator_isolates_failures (o : Oracles) (body : ReqBody)
    (raws : List (List (String × PyVal)))
    (hn : pyStrip (body.niche.getD "") ≠ "")
    (hl : pyStrip (body.location.getD "") ≠ "")
    (hm1 : 1 ≤ body.max_results.getD 10)
    (hm2 : body.max_results.getD 10 ≤ 50)
    (hdisc : o.scrapeGoogleMaps (pyStrip (body.niche.getD ""))
      (pyStrip (body.location.getD "")) (body.max_results.getD 10) = .ok raws)
    (hw : ∀ u, ∃ e, o.scrapeWebsite u = .error e)
    (hg : ∀ d, ∃ e, o.gradeWebsite d = .error e)
    (hi : ∀ a b, ∃ e, o.scrapeInstagram a b = .error e)
    (ha : ∀ d s, ∃ e, o.analyzeBusiness d s = .error e)
    (_hs : ∀ x y z, ∃ e, o.saveToDb x y z = .error e) :
    (analyze o body).1 = .success (pyStrip (body.niche.getD ""))
      (pyStrip (body.location.getD "")) raws.length
      (raws.map (failedRecord (pyStrip (body.niche.getD ""))
        (pyStrip (body.location.getD "")))) ∧
    (∀ raw k, k ∉ enrichmentKeys →
      pyLookup (failedRecord (pyStrip (body.niche.getD ""))
        (pyStrip (body.location.getD "")) raw) k = pyLookup raw k) := by
  constructor
  · have hrec : ∀ raw, (processCandidate o (pyStrip (body.niche.getD ""))
        (pyStrip (body.location.getD "")) raw).1 =
        failedRecord (pyStrip (body.niche.getD ""))
          (pyStrip (body.location.getD "")) raw :=
      fun raw => processCandidate_allfail o _ _ raw hw hg hi ha
    simp only [analyze, if_neg hn, if_neg hl,
      if_neg (by omega : ¬ (body.max_results.getD 10 < 1 ∨
        body.max_results.getD 10 > 50)), hdisc]
    rw [analyze_foldl_records]
    simp [hrec]
  · intro raw k hk
    simp only [enrichmentKeys, List.mem_cons, List.not_mem_nil, or_false,
      not_or] at hk
    obtain ⟨h1, h2, h3, h4, h5, h6, h7, h8⟩ := hk
    simp [failedRecord, pyLookup_dictSet_ne, h1, h2, h3, h4, h5, h6, h7, h8]

/-- The spec's end-to-end scenario: a discovery stub returning five
candidates while every enrichment stage raises. -/
def fiveCandidates : List (List (String × PyVal)) :=
  [[("name", .str "A1"), ("website", .str "https://a1.example")],
   [("name", .str "A2")],
   [("name", .str "A3")],
   [("name", .str "A4")],
   [("name", .str "A5")]]

/-- A discovery stub with five candidates and all enrichment stages
raising. -/
def fiveStubOracles : Oracles where
  scrapeGoogleMaps := fun _ _ _ => .ok fiveCandidates
  scrapeWebsite := fun _ => .error .other
  gradeWebsite := fun _ => .error .other
  scrapeInstagram := fun _ _ => .error .other
  analyzeBusiness := fun _ _ => .error .other
  saveToDb := fun _ _ _ => .error .other

/-- Witness for C1, at the spec's example: the batch request
`{niche: "medspas", location: "Austin, TX", max_results: 5}` with all
enrichment stubbed to fail returns success with exactly five records. -/
theorem orchestrator_isolates_failures_witness :
    (analyze fiveStubOracles
      (ReqBody.mk (some "medspas") (some "Austin, TX") (some 5))).1 =
      .success "medspas" "Austin, TX" 5
        (fiveCandidates.map (failedRecord "medspas" "Austin, TX")) ∧
    pyLookup (failedRecord "medspas" "Austin, TX" fiveCandidates.head!)
      "name" = some (.str "A1") := by
  have h := orchestrator_isolates_failures fiveStubOracles
    (ReqBody.mk (some "medspas") (some "Austin, TX") (some 5)) fiveCandidates
    (by decide) (by decide) (by decide) (by decide) rfl
    (fun u => ⟨.other, rfl⟩) (fun d => ⟨.other, rfl⟩)
    (fun a b => ⟨.other, rfl⟩) (fun d s => ⟨.other, rfl⟩)
    (fun x y z => ⟨.other, rfl⟩)
  exact ⟨h.1, rfl⟩

/-- A page carrying an Instagram profile anchor — the input on which
the spec's social-link discovery should fire. -/
def igAnchorPage : Node :=
  .elem "html" []
    [.elem "body" []
      [.elem "a" [("href", "https://instagram.com/glowmedspa")]
        [.text "Follow us"]]]

/-- **C7** — Social-link discovery is absent from the code
(`_parse_website_content`, `app/scrapers/website.py`): the profile dict
has exactly the twelve source keys and no `instagram_url` (or any
social-link) entry, for every page — including a page with an Instagram
anchor — and so does `_empty_website_data`.  Consequently the
orchestrator's `website_data.get("instagram_url")`
(`app/routes/analyze.py` line 146) is always `None`, and
`scrape_instagram` (`app/scrapers/instagram.py`) always falls through
to the name-generated candidates instead of a username parsed from a
discovered URL. -/
theorem website_profile_lacks_social_link (σ : List String → List String)
    (root : Node) (url businessName : String) :
    (websiteProfileDict (parse_website_content σ root url)).map Prod.fst =
      ["url", "services", "prices", "team_members", "meta_title",
       "meta_description", "h1_tags", "images", "links",
       "has_mobile_viewport", "cta_buttons", "text_length"] ∧
    pyLookup (websiteProfileDict (parse_website_content σ root url))
      "instagram_url" = Option.none ∧
    pyGetD (websiteProfileDict (parse_website_content σ root url))
      "instagram_url" PyVal.none = PyVal.none ∧
    pyLookup (empty_website_data url) "instagram_url" = Option.none ∧
    usernamesToTry businessName Option.none =
      generate_instagram_usernames businessName ∧
    pyLookup (websiteProfileDict (parse_website_content
        (fun xs => xs.dedup) igAnchorPage "https://site.example"))
      "instagram_url" = Option.none :=
  ⟨rfl, rfl, rfl, rfl, rfl, rfl⟩

/-- One possible set-iteration order: first occurrences in encounter
order (`list(set(...))` under one hash seed). -/
def setOrderKeep (xs : List String) : List String := xs.dedup

/-- Another possible set-iteration order: the same distinct elements,
reversed (`list(set(...))` under another hash seed). -/
def setOrderRev (xs : List String) : List String := xs.dedup.reverse

/-- `setOrderKeep` enumerates the distinct elements. -/
theorem setOrderKeep_perm (xs : List String) : List.Perm (setOrderKeep xs) xs.dedup :=
  List.Perm.refl _

/-- `setOrderRev` enumerates the distinct elements. -/
theorem setOrderRev_perm (xs : List String) : List.Perm (setOrderRev xs) xs.dedup :=
  xs.dedup.reverse_perm

/-- A page with two call-to-action anchors, on which the
`list(set(...))` order is observable. -/
def ctaPage : Node :=
  .elem "html" []
    [.elem "body" []
      [.elem "a" [("class", "btn")] [.text "Book Now"],
       .elem "a" [("class", "btn")] [.text "Contact Us"]]]

/-- **C9** (counterexample) — website-content parsing is not a function
of the input alone: `_extract_cta_buttons`/`_extract_services`/
`_extract_team` order their results with `list(set(...))`, whose
iteration order depends on the per-process string-hash seed
(`PYTHONHASHSEED`).  Two valid set-iteration orders for the same fixed
page and URL yield different `WebsiteProfile` values (here, the
`cta_buttons` lists differ in order), so two runs need not be
byte-identical. -/
theorem parse_not_run_deterministic :
    parse_website_content setOrderKeep ctaPage "https://site.example" ≠
      parse_website_content setOrderRev ctaPage "https://site.example" := by
  decide

/-- Taking up to `cap` elements of two enumerations of the same set is
order-independent as a multiset once the set fits the cap. -/
theorem take_perm_of_set_orders {σ1 σ2 : List String → List String}
    (h1 : ∀ xs : List String, List.Perm (σ1 xs) xs.dedup)
    (h2 : ∀ xs : List String, List.Perm (σ2 xs) xs.dedup)
    (c : List String) (cap : Nat) (hc : c.dedup.length ≤ cap) :
    List.Perm ((σ1 c).take cap) ((σ2 c).take cap) := by
  have l1 : (σ1 c).length = c.dedup.length := (h1 c).length_eq
  have l2 : (σ2 c).length = c.dedup.length := (h2 c).length_eq
  rw [List.take_of_length_le (by omega), List.take_of_length_le (by omega)]
  exact (h1 c).trans (h2 c).symm

/-- **C9** (amended) — website-content parsing is deterministic given
the input page, the URL and the run's set-iteration order: all fields
except `services`, `team_members` and `cta_buttons` are independent of
the set-iteration order, and those three lists agree up to permutation
across any two valid orders whenever their deduplicated candidate sets
fit the caps (20/15/10); only their element order (and, beyond the cap,
the selection) is run-dependent. -/
theorem parse_deterministic_up_to_set_order
    (σ1 σ2 : List String → List String)
    (h1 : ∀ xs : List String, List.Perm (σ1 xs) xs.dedup)
    (h2 : ∀ xs : List String, List.Perm (σ2 xs) xs.dedup)
    (root : Node) (url : String) :
    (parse_website_content σ1 root url).url =
      (parse_website_content σ2 root url).url ∧
    (parse_website_content σ1 root url).prices =
      (parse_website_content σ2 root url).prices ∧
    (parse_website_content σ1 root url).meta_title =
      (parse_website_content σ2 root url).meta_title ∧
    (parse_website_content σ1 root url).meta_description =
      (parse_website_content σ2 root url).meta_description ∧
    (parse_website_content σ1 root url).h1_tags =
      (parse_website_content σ2 root url).h1_tags ∧
    (parse_website_content σ1 root url).images =
      (parse_website_content σ2 root url).images ∧
    (parse_website_content σ1 root url).links =
      (parse_website_content σ2 root url).links ∧
    (parse_website_content σ1 root url).has_mobile_viewport =
      (parse_website_content σ2 root url).has_mobile_viewport ∧
    (parse_website_content σ1 root url).text_length =
      (parse_website_content σ2 root url).text_length ∧
    ((servicesRaw root).dedup.length ≤ 20 →
      List.Perm (parse_website_content σ1 root url).services
        (parse_website_content σ2 root url).services) ∧
    ((teamRaw root).dedup.length ≤ 15 →
      List.Perm (parse_website_content σ1 root url).team_members
        (parse_website_content σ2 root url).team_members) ∧
    ((ctaRaw root).dedup.length ≤ 10 →
      List.Perm (parse_website_content σ1 root url).cta_buttons
        (parse_website_content σ2 root url).cta_buttons) :=
  ⟨rfl, rfl, rfl, rfl, rfl, rfl, rfl, rfl, rfl,
   fun hc => take_perm_of_set_orders h1 h2 (servicesRaw root) 20 hc,
   fun hc => take_perm_of_set_orders h1 h2 (teamRaw root) 15 hc,
   fun hc => take_perm_of_set_orders h1 h2 (ctaRaw root) 10 hc⟩

/-- Witness for the amended C9, on the two concrete orders and the CTA
page: the order-independent fields coincide and the CTA lists are
permutations of each other. -/
theorem parse_deterministic_up_to_set_order_witness :
    (parse_website_content setOrderKeep ctaPage "https://site.example").prices =
      (parse_website_content setOrderRev ctaPage "https://site.example").prices ∧
    (parse_website_content setOrderKeep ctaPage "https://site.example").text_length =
      (parse_website_content setOrderRev ctaPage "https://site.example").text_length ∧
    List.Perm
      (parse_website_content setOrderKeep ctaPage "https://site.example").cta_buttons
      (parse_website_content setOrderRev ctaPage "https://site.example").cta_buttons := by
  have h := parse_deterministic_up_to_set_order setOrderKeep setOrderRev
    setOrderKeep_perm setOrderRev_perm ctaPage "https://site.example"
  exact ⟨h.2.1, h.2.2.2.2.2.2.2.2.1,
    h.2.2.2.2.2.2.2.2.2.2.2 (by decide)⟩

end BusinessScraper
